import Mathlib

/-!
Verification of the reefspect upload/scan pipeline (`src/controller.rs`,
`src/main.rs`, `src/av.rs`, `src/app_config.rs`).

Shallow embedding conventions:
* bytes are `Nat` values (0..255), byte buffers are `List Nat`;
* `Result<T, E>` becomes `Except E T`; `std::io::Error` is represented by its
  message string (`std::io::Error::other(msg)` carries exactly `msg`, and
  `err.to_string()` returns it);
* the external digest crates (`crc_fast`, `md5`, `sha2`) are incremental
  accumulators whose finalized digest is a deterministic function of the byte
  sequence fed through `update`.  The CRC-32 accumulator (algorithm
  `Crc32IsoHdlc`, the standard reflected CRC-32) is embedded concretely
  bit-by-bit; the two cryptographic hashes are modelled by the byte sequence
  they were fed (their compression functions are injective black boxes of that
  sequence, which is all the claims depend on);
* `std::io::Write::write` follows its documented contract: a call may write
  only a prefix of the buffer and returns the number of bytes written.  The
  number reported by each call is environment input, carried alongside each
  chunk; a run where every call reports the full chunk length is the
  "full write" schedule;
* temp-file creation, `sync_data` and `File::open` are modelled as succeeding;
  the fallible points kept in the model are multipart field/chunk errors, the
  temp-path UTF-8 check, engine submission, and the engine event stream.
-/

set_option autoImplicit false

namespace Reefspect

/-- HTTP status codes are plain numbers (`StatusCode::BAD_REQUEST` = 400,
`INTERNAL_SERVER_ERROR` = 500, `NOT_FOUND` = 404, `ACCEPTED` = 202). -/
abbrev StatusCode := Nat

/-! ## CRC-32 (crc_fast, algorithm Crc32IsoHdlc) -/

/-- One bit step of the reflected CRC-32: shift right, conditionally xor the
reflected polynomial 0xEDB88320. -/
def crc32Step (crc : Nat) : Nat :=
  if crc % 2 = 1 then (crc / 2) ^^^ 0xEDB88320 else crc / 2

/-- Iterate `crc32Step` the given number of times. -/
def crc32Bits : Nat → Nat → Nat
  | 0, crc => crc
  | n + 1, crc => crc32Bits n (crc32Step crc)

/-- Absorb one byte into the CRC-32 state. -/
def crc32Byte (crc b : Nat) : Nat :=
  crc32Bits 8 (crc ^^^ b)

/-- Absorb a byte sequence into the CRC-32 state. -/
def crc32Update (crc : Nat) (bytes : List Nat) : Nat :=
  bytes.foldl crc32Byte crc

/-- CRC-32/ISO-HDLC initial state. -/
def crc32Init : Nat := 0xFFFFFFFF

/-- Embedding of `crc_fast::Digest` (algorithm `Crc32IsoHdlc`). -/
structure CrcDigest where
  state : Nat

/-- `crc_fast::Digest::new(CrcAlgorithm::Crc32IsoHdlc)`. -/
def CrcDigest.new : CrcDigest := ⟨crc32Init⟩

/-- `Digest::update`. -/
def CrcDigest.update (d : CrcDigest) (chunk : List Nat) : CrcDigest :=
  ⟨crc32Update d.state chunk⟩

/-- `Digest::finalize`: xor-out 0xFFFFFFFF. -/
def CrcDigest.finalize (d : CrcDigest) : Nat :=
  d.state ^^^ 0xFFFFFFFF

/-! ## Hex rendering -/

/-- Lowercase hex digit for a value below 16. -/
def hexDigit (n : Nat) : Char :=
  if n < 10 then Char.ofNat (48 + n) else Char.ofNat (87 + n)

/-- Hex digits of a number, most significant first, empty for 0; the first
argument is structural fuel (the number itself always suffices). -/
def natHexDigitsAux : Nat → Nat → List Char
  | 0, _ => []
  | fuel + 1, n =>
    if n = 0 then [] else natHexDigitsAux fuel (n / 16) ++ [hexDigit (n % 16)]

/-- Hex digits of a number, most significant first, empty for 0. -/
def natHexDigits (n : Nat) : List Char :=
  natHexDigitsAux n n

/-- Rust format string `{:08x?}` applied to an unsigned integer: lowercase
hex, left zero-padded to width 8 (line 95 of controller.rs). -/
def fmt08x (v : Nat) : String :=
  let ds := if v = 0 then [hexDigit 0] else natHexDigits v
  String.mk (List.replicate (8 - ds.length) (hexDigit 0) ++ ds)

/-- `const_hex::encode`: two lowercase hex digits per byte. -/
def hexEncode (bytes : List Nat) : String :=
  String.mk (bytes.foldr (fun b acc => hexDigit (b / 16 % 16) :: hexDigit (b % 16) :: acc) [])

/-! ## MD5 and SHA-256 accumulators -/

/-- Embedding of the incremental `md5::Md5` accumulator (external crate): the
finalized digest is a deterministic function of the byte sequence fed through
`update`, so the state is modelled as that sequence and `finalize` returns it
as the digest value representative. -/
structure Md5 where
  fed : List Nat

/-- `Md5::new()`. -/
def Md5.new : Md5 := ⟨[]⟩

/-- `Md5::update` absorbs a chunk. -/
def Md5.update (h : Md5) (chunk : List Nat) : Md5 := ⟨h.fed ++ chunk⟩

/-- `Md5::finalize`: the digest, represented by the fed byte sequence. -/
def Md5.finalize (h : Md5) : List Nat := h.fed

/-- Embedding of the incremental `sha2::Sha256` accumulator, modelled exactly
like `Md5`. -/
structure Sha256 where
  fed : List Nat

/-- `Sha256::new()`. -/
def Sha256.new : Sha256 := ⟨[]⟩

/-- `Sha256::update` absorbs a chunk. -/
def Sha256.update (h : Sha256) (chunk : List Nat) : Sha256 := ⟨h.fed ++ chunk⟩

/-- `Sha256::finalize`: the digest, represented by the fed byte sequence. -/
def Sha256.finalize (h : Sha256) : List Nat := h.fed

/-! ## The per-field chunk loop (controller.rs lines 78-87) -/

/-- State of one iteration of the upload loop for a single field: the running
`size` counter, the three digest accumulators, and the bytes actually present
in the staged temporary file. -/
structure SinkState where
  size : Nat
  crc32 : CrcDigest
  md5 : Md5
  sha256 : Sha256
  tmp : List Nat

/-- State before the first chunk (lines 78-81). -/
def SinkState.init : SinkState :=
  ⟨0, CrcDigest.new, Md5.new, Sha256.new, []⟩

/-- One loop body execution (lines 82-87) for a chunk, where `written` is the
byte count reported by `tmp.write(&chunk)`.  Per the `std::io::Write::write`
contract the call writes a prefix of the buffer of length `written` (with
`written ≤ chunk.length`) and that count — not the chunk length — is what the
code adds to `size`.  All three digests always absorb the whole chunk. -/
def SinkState.feed (st : SinkState) (chunk : List Nat) (written : Nat) : SinkState :=
  { size := st.size + written
    crc32 := st.crc32.update chunk
    md5 := st.md5.update chunk
    sha256 := st.sha256.update chunk
    tmp := st.tmp ++ chunk.take written }

/-- Run the chunk loop over a sequence of (chunk, reported write count)
pairs. -/
def runSink (chunks : List (List Nat × Nat)) : SinkState :=
  chunks.foldl (fun st p => st.feed p.1 p.2) SinkState.init

/-- The full-write schedule: every `write` call reports the whole chunk. -/
def fullWrites (chunks : List (List Nat)) : List (List Nat × Nat) :=
  chunks.map (fun c => (c, c.length))

/-! ## Scan engine events (clamav_async) and poll_result -/

/-- `clamav_async::engine::ScanResult`. -/
inductive ScanResult where
  | clean
  | whitelisted
  | virus (sig : String)
deriving DecidableEq

/-- `clamav_async::engine::ScanEvent`: either the terminal result event
(carrying `Result<ScanResult, Error>`, the error represented by its message)
or any other, non-result event. -/
instance {ε α : Type} [DecidableEq ε] [DecidableEq α] : DecidableEq (Except ε α) := fun a b => by
  cases a with
  | error x =>
    cases b with
    | error y =>
      exact if h : x = y then .isTrue (by rw [h]) else .isFalse (fun hc => h (by injection hc))
    | ok y => exact .isFalse (fun hc => Except.noConfusion hc)
  | ok x =>
    cases b with
    | error y => exact .isFalse (fun hc => Except.noConfusion hc)
    | ok y =>
      exact if h : x = y then .isTrue (by rw [h]) else .isFalse (fun hc => h (by injection hc))

inductive ScanEvent where
  | result (r : Except String ScanResult)
  | other
deriving DecidableEq

/-- controller.rs lines 166-179: consume the event stream, return the payload
of the first result event (engine errors mapped to io errors with the same
message), or an io error when the stream ends with no result event. -/
def poll_result : List ScanEvent → Except String ScanResult
  | [] => .error ("Could not retrieve scan result")
  | .result r :: _ => r
  | .other :: rest => poll_result rest

/-! ## Content sniffing (controller.rs lines 156-164) -/

/-- Read cap of `detect_type` (line 158). -/
def LIMIT : Nat := 8192

/-- Embedding of `infer::get` (external crate), restricted to representative
signatures: every matcher of the crate examines a bounded prefix of the
buffer, and `get` returns `none` when no signature matches.  The signatures
kept here are the ones exercised by the repository tests (PDF and the ZIP
local/empty archive markers). -/
def infer_get (bytes : List Nat) : Option String :=
  if [0x25, 0x50, 0x44, 0x46, 0x2d].isPrefixOf bytes then some ("application/pdf")
  else if [0x50, 0x4b, 0x03, 0x04].isPrefixOf bytes then some ("application/zip")
  else if [0x50, 0x4b, 0x05, 0x06].isPrefixOf bytes then some ("application/zip")
  else if [0x50, 0x4b, 0x07, 0x08].isPrefixOf bytes then some ("application/zip")
  else none

/-- controller.rs lines 156-164: open the staged file (modelled as the byte
list it holds, so opening succeeds), read at most `LIMIT` bytes from its
start (`file.take(LIMIT).read_to_end`), and run `infer::get` on that prefix.
The `Vec::with_capacity(min LIMIT size)` of line 161 only preallocates and
does not affect the bytes read. -/
def detect_type (content : List Nat) : Except String (Option String) :=
  .ok (infer_get (content.take LIMIT))

/-! ## Request / response data model -/

/-- One multipart field together with the environment behavior of its
processing: the chunk stream (each chunk paired with the byte count its
`write` call reports), an optional multipart error terminating the chunk
stream, whether the temp file allocated for this field has a UTF-8 path,
whether `engine.scan` submission fails, and the engine event stream. -/
structure UploadField where
  file_name : Option String
  field_name : Option String
  chunks : List (List Nat × Nat)
  chunkErr : Option String
  tmpPathUtf8 : Bool
  scanSubmitErr : Option String
  scanEvents : List ScanEvent

/-- One multipart request: the fields returned by successive `next_field`
calls, then either end-of-stream (`none`) or a multipart error. -/
structure UploadRequest where
  fields : List UploadField
  trailingErr : Option String

/-- av.rs `AvContext` (the engine handle is kept abstract; its behavior lives
in the per-field `scanSubmitErr`/`scanEvents`, and `db_date` is the rendered
RFC-3339 string). -/
structure AvContext where
  clamav_version : String
  db_version : Nat
  db_sig_count : Nat
  db_date : String

/-- controller.rs `AvResult` (lines 30-43). -/
structure AvResult where
  name : Option String
  size : Nat
  crc32 : String
  md5 : String
  sha256 : String
  content_type : Option String
  date_scanned : String
  result : String
  signature : Option String
deriving DecidableEq

/-- controller.rs `AvResponse` (lines 17-28). -/
structure AvResponse where
  av_version : String
  db_version : Nat
  db_sig_count : Nat
  db_date : String
  results : List AvResult
deriving DecidableEq

/-- controller.rs lines 181-184. -/
def map_mp_error_to_400 (err : String) : StatusCode × String :=
  (400, err)

/-- controller.rs lines 186-189. -/
def map_io_error_to_500 (err : String) : StatusCode × String :=
  (500, err)

/-! ## scan, processField, upload (controller.rs lines 68-154) -/

/-- controller.rs lines 112-154: build one `AvResult`.  The field name falls
back from `file_name` to the form field name; a non-UTF-8 temp path is an io
error "invalid path string" raised before sniffing and scanning; then the
type is sniffed, the artifact submitted to the engine (`Fmap::from_file` plus
`File::open` modelled as succeeding), and the event stream polled.  `now` is
the `Utc::now()` timestamp rendering. -/
def scan (now : String) (f : UploadField) (st : SinkState) : Except String AvResult :=
  let name := f.file_name.or f.field_name
  match f.tmpPathUtf8 with
  | false => .error ("invalid path string")
  | true =>
    match detect_type st.tmp with
    | .error e => .error e
    | .ok content_type =>
      match f.scanSubmitErr with
      | some e => .error e
      | none =>
        match poll_result f.scanEvents with
        | .error e => .error e
        | .ok r =>
          .ok { name := name
                size := st.size
                crc32 := fmt08x st.crc32.finalize
                md5 := hexEncode st.md5.finalize
                sha256 := hexEncode st.sha256.finalize
                content_type := content_type
                date_scanned := now
                result := match r with
                  | .clean => "CLEAN"
                  | .whitelisted => "WHITELISTED"
                  | .virus _ => "VIRUS"
                signature := match r with
                  | .clean => none
                  | .whitelisted => none
                  | .virus sig => some sig }

/-- One iteration of the upload loop (controller.rs lines 73-101) for one
field: create the temp file (modelled as succeeding), run the chunk loop
(a multipart chunk error maps to 400), `sync_data` (modelled as succeeding),
then `scan` with io errors mapped to 500. -/
def processField (now : String) (f : UploadField) : Except (StatusCode × String) AvResult :=
  match f.chunkErr with
  | some e => .error (map_mp_error_to_400 e)
  | none => (scan now f (runSink f.chunks)).mapError map_io_error_to_500

/-- The `while let Some(field) = mp.next_field()` loop (lines 72-102): process
fields in order, pushing each result; a failing field aborts with its mapped
error; a multipart error from `next_field` itself maps to 400. -/
def uploadFields (now : String) : List UploadField → Option String → Except (StatusCode × String) (List AvResult)
  | [], none => .ok []
  | [], some e => .error (map_mp_error_to_400 e)
  | f :: rest, te =>
    match processField now f with
    | .error e => .error e
    | .ok r =>
      match uploadFields now rest te with
      | .error e => .error e
      | .ok rs => .ok (r :: rs)

/-- controller.rs lines 68-110: the upload handler. -/
def upload (ctx : AvContext) (req : UploadRequest) (now : String) : Except (StatusCode × String) AvResponse :=
  match uploadFields now req.fields req.trailingErr with
  | .error e => .error e
  | .ok results =>
    .ok { av_version := ctx.clamav_version
          db_version := ctx.db_version
          db_sig_count := ctx.db_sig_count
          db_date := ctx.db_date
          results := results }

/-! ## Shutdown endpoint (controller.rs lines 51-66, wired in main.rs) -/

/-- One call to the shutdown handler.  The slot models the
`Mutex<Option<oneshot::Sender<()>>>` contents; the returned triple is the
status code, the slot after the call, and whether this call sent the one-shot
signal (`lock.take().map(|sender| sender.send(()))` sends exactly when the
slot was occupied). -/
def shutdown (enable : Bool) (slot : Option Unit) : StatusCode × Option Unit × Bool :=
  match enable with
  | false => (404, slot, false)
  | true => (202, none, slot.isSome)

/-- A sequence of calls to the shutdown handler: the list of (status, sent)
observations and the final slot state. -/
def shutdownSeq (enable : Bool) : Nat → Option Unit → List (StatusCode × Bool) × Option Unit
  | 0, slot => ([], slot)
  | n + 1, slot =>
    let r := shutdown enable slot
    let rest := shutdownSeq enable n r.2.1
    ((r.1, r.2.2) :: rest.1, rest.2)

/-- Total number of signal sends observed in a call sequence. -/
def sendCount (out : List (StatusCode × Bool) × Option Unit) : Nat :=
  (out.1.filter (fun p => p.2)).length

/-! ## Model validation against the repository test vectors (main.rs tests) -/

/-- The ASCII bytes of "123456789", the standard CRC catalogue check input;
CRC-32/ISO-HDLC maps it to 0xcbf43926. -/
def crcCheckBytes : List Nat :=
  [49, 50, 51, 52, 53, 54, 55, 56, 57]

set_option maxRecDepth 10000 in
/-- The embedded CRC-32 reproduces the catalogue check value for
CRC-32/ISO-HDLC, the algorithm selected on line 79 of controller.rs. -/
theorem crc32_check_vector :
    fmt08x (CrcDigest.finalize (CrcDigest.update CrcDigest.new crcCheckBytes)) = "cbf43926" := by
  decide

/-- Zero-padding of the `{:08x?}` rendering on the empty input. -/
theorem crc32_empty_vector :
    fmt08x (CrcDigest.finalize (CrcDigest.update CrcDigest.new [])) = "00000000" := by
  decide

/-! ## Chunk-loop lemmas -/

/-- Absorbing a concatenation equals absorbing both parts in order. -/
theorem crc32Update_append (s : Nat) (a b : List Nat) :
    crc32Update s (a ++ b) = crc32Update (crc32Update s a) b := by
  simp [crc32Update, List.foldl_append]

/-- Characterization of the chunk loop from an arbitrary state when every
`write` call reports the full chunk length. -/
theorem sinkFoldl_full (chunks : List (List Nat × Nat)) (st : SinkState)
    (h : ∀ p ∈ chunks, p.2 = p.1.length) :
    chunks.foldl (fun s p => s.feed p.1 p.2) st =
      { size := st.size + (chunks.map Prod.fst).flatten.length
        crc32 := ⟨crc32Update st.crc32.state (chunks.map Prod.fst).flatten⟩
        md5 := ⟨st.md5.fed ++ (chunks.map Prod.fst).flatten⟩
        sha256 := ⟨st.sha256.fed ++ (chunks.map Prod.fst).flatten⟩
        tmp := st.tmp ++ (chunks.map Prod.fst).flatten } := by
  induction chunks generalizing st with
  | nil =>
    obtain ⟨s, ⟨c⟩, ⟨m⟩, ⟨sh⟩, t⟩ := st
    simp [crc32Update]
  | cons p rest ih =>
    have hp : p.2 = p.1.length := h p (List.mem_cons_self _ _)
    have hrest : ∀ q ∈ rest, q.2 = q.1.length := fun q hq => h q (List.mem_cons_of_mem _ hq)
    rw [List.foldl_cons, ih _ hrest]
    simp [SinkState.feed, CrcDigest.update, Md5.update, Sha256.update, hp,
      crc32Update_append, List.take_length, Nat.add_assoc]

/-- The chunk loop from the initial state under the full-write schedule. -/
theorem runSink_full (chunks : List (List Nat × Nat))
    (h : ∀ p ∈ chunks, p.2 = p.1.length) :
    runSink chunks =
      { size := (chunks.map Prod.fst).flatten.length
        crc32 := ⟨crc32Update crc32Init (chunks.map Prod.fst).flatten⟩
        md5 := ⟨(chunks.map Prod.fst).flatten⟩
        sha256 := ⟨(chunks.map Prod.fst).flatten⟩
        tmp := (chunks.map Prod.fst).flatten } := by
  rw [runSink, sinkFoldl_full chunks SinkState.init h]
  simp [SinkState.init, CrcDigest.new, Md5.new, Sha256.new]

/-- Projecting the chunks out of the full-write schedule. -/
theorem fullWrites_fst (chunks : List (List Nat)) :
    ((fullWrites chunks).map Prod.fst) = chunks := by
  simp [fullWrites, List.map_map, Function.comp_def]

/-- Every pair of the full-write schedule reports the chunk length. -/
theorem fullWrites_len (chunks : List (List Nat)) :
    ∀ p ∈ fullWrites chunks, p.2 = p.1.length := by
  intro p hp
  simp only [fullWrites, List.mem_map] at hp
  obtain ⟨c, _, rfl⟩ := hp
  rfl

/-! ## Claim theorems: digest loop (C1, C5) -/

/-- C1 counterexample: the claim fails on the code under a legal outcome of
`std::io::Write::write`.  On the single chunk [65, 66], a write call that
reports 1 byte written (`1 ≤ 2`, allowed by the `write` contract, e.g. on
ENOSPC or RLIMIT_FSIZE reached after one byte) leaves the digests covering
[65, 66] while the staged file holds [65] and `size` reports 1, so the three
digests, the file bytes and the reported count do not cover the same byte
sequence. -/
theorem upload_digest_bytes_counterexample :
    1 ≤ ([65, 66] : List Nat).length ∧
    (runSink [([65, 66], 1)]).md5.fed = [65, 66] ∧
    (runSink [([65, 66], 1)]).sha256.fed = [65, 66] ∧
    (runSink [([65, 66], 1)]).tmp = [65] ∧
    (runSink [([65, 66], 1)]).size = 1 ∧
    (runSink [([65, 66], 1)]).md5.fed ≠ (runSink [([65, 66], 1)]).tmp ∧
    (runSink [([65, 66], 1)]).size ≠ (runSink [([65, 66], 1)]).md5.fed.length := by
  decide

/-- C1 (amended): when every `tmp.write(&chunk)` call writes the full chunk
(no short write occurs), the bytes in the staged temporary file, the bytes
absorbed by each of the three digest accumulators, and the reported `size`
all cover exactly the concatenation of the incoming chunks, for every chunk
sequence: the CRC-32 state is the fold over precisely the staged bytes, the
MD5 and SHA-256 accumulators were fed precisely the staged bytes, and `size`
is their count. -/
theorem upload_digest_bytes_amended (chunks : List (List Nat × Nat))
    (h : ∀ p ∈ chunks, p.2 = p.1.length) :
    (runSink chunks).tmp = (chunks.map Prod.fst).flatten ∧
    (runSink chunks).crc32.state = crc32Update crc32Init (runSink chunks).tmp ∧
    (runSink chunks).md5.fed = (runSink chunks).tmp ∧
    (runSink chunks).sha256.fed = (runSink chunks).tmp ∧
    (runSink chunks).size = (runSink chunks).tmp.length := by
  rw [runSink_full chunks h]
  exact ⟨rfl, rfl, rfl, rfl, rfl⟩

/-- Witness for the amended C1 theorem at the concrete chunk sequence
[([1, 2], 2)]. -/
theorem upload_digest_bytes_amended_witness :
    (∀ p ∈ [(([1, 2] : List Nat), 2)], p.2 = p.1.length) ∧
    (runSink [([1, 2], 2)]).md5.fed = (runSink [([1, 2], 2)]).tmp ∧
    (runSink [([1, 2], 2)]).size = (runSink [([1, 2], 2)]).tmp.length :=
  ⟨by decide,
   (upload_digest_bytes_amended [([1, 2], 2)] (by decide)).2.2.1,
   (upload_digest_bytes_amended [([1, 2], 2)] (by decide)).2.2.2.2⟩

/-- C5: the chunking granularity does not affect the outcome of the per-field
digest loop.  For any two chunk partitions of the same byte sequence, running
the loop (with every write completing) yields identical finalized CRC-32,
MD5 and SHA-256 values and identical byte counts. -/
theorem digest_chunk_invariance (c1 c2 : List (List Nat)) (h : c1.flatten = c2.flatten) :
    (runSink (fullWrites c1)).crc32.finalize = (runSink (fullWrites c2)).crc32.finalize ∧
    (runSink (fullWrites c1)).md5.finalize = (runSink (fullWrites c2)).md5.finalize ∧
    (runSink (fullWrites c1)).sha256.finalize = (runSink (fullWrites c2)).sha256.finalize ∧
    (runSink (fullWrites c1)).size = (runSink (fullWrites c2)).size := by
  rw [runSink_full (fullWrites c1) (fullWrites_len c1),
    runSink_full (fullWrites c2) (fullWrites_len c2), fullWrites_fst, fullWrites_fst, h]
  exact ⟨rfl, rfl, rfl, rfl⟩

/-- Witness for C5 at the two partitions [[1, 2], [3]] and [[1], [2, 3]] of
the byte sequence [1, 2, 3]. -/
theorem digest_chunk_invariance_witness :
    ([[1, 2], [3]] : List (List Nat)).flatten = ([[1], [2, 3]] : List (List Nat)).flatten ∧
    (runSink (fullWrites [[1, 2], [3]])).crc32.finalize
      = (runSink (fullWrites [[1], [2, 3]])).crc32.finalize ∧
    (runSink (fullWrites [[1, 2], [3]])).size = (runSink (fullWrites [[1], [2, 3]])).size :=
  ⟨by decide,
   (digest_chunk_invariance [[1, 2], [3]] [[1], [2, 3]] (by decide)).1,
   (digest_chunk_invariance [[1, 2], [3]] [[1], [2, 3]] (by decide)).2.2.2⟩

/-! ## Claim theorems: scan orchestration (C2), sniffing (C6), shutdown (C9) -/

/-- C2: `poll_result` returns the payload of the first result event and
ignores every event before it; a stream with no result event fails with the
engine-communication error "Could not retrieve scan result" rather than a
default verdict; and a first result event carrying an engine-internal error
propagates that error (same message, as an io error) rather than a verdict.
The return type yields exactly one verdict or one error per call. -/
theorem poll_result_first_event :
    (∀ (pre post : List ScanEvent) (r : Except String ScanResult),
      (∀ e ∈ pre, e = ScanEvent.other) →
      poll_result (pre ++ ScanEvent.result r :: post) = r) ∧
    (∀ evs : List ScanEvent,
      (∀ e ∈ evs, e = ScanEvent.other) →
      poll_result evs = .error ("Could not retrieve scan result")) ∧
    (∀ (pre post : List ScanEvent) (msg : String),
      (∀ e ∈ pre, e = ScanEvent.other) →
      poll_result (pre ++ ScanEvent.result (.error msg) :: post) = .error msg) := by
  have hfirst : ∀ (pre post : List ScanEvent) (r : Except String ScanResult),
      (∀ e ∈ pre, e = ScanEvent.other) →
      poll_result (pre ++ ScanEvent.result r :: post) = r := by
    intro pre post r h
    induction pre with
    | nil => rfl
    | cons e rest ih =>
      have he : e = ScanEvent.other := h e (List.mem_cons_self _ _)
      subst he
      exact ih (fun x hx => h x (List.mem_cons_of_mem _ hx))
  have hnone : ∀ evs : List ScanEvent,
      (∀ e ∈ evs, e = ScanEvent.other) →
      poll_result evs = .error ("Could not retrieve scan result") := by
    intro evs h
    induction evs with
    | nil => rfl
    | cons e rest ih =>
      have he : e = ScanEvent.other := h e (List.mem_cons_self _ _)
      subst he
      exact ih (fun x hx => h x (List.mem_cons_of_mem _ hx))
  exact ⟨hfirst, hnone, fun pre post msg h => hfirst pre post (.error msg) h⟩

/-- Witness for C2: a concrete stream with non-result noise before a clean
result, a stream with no result event, and a stream whose first result event
is an engine-internal error. -/
theorem poll_result_first_event_witness :
    poll_result [ScanEvent.other, ScanEvent.result (.ok .clean),
      ScanEvent.result (.ok (.virus "X")), ScanEvent.other] = .ok .clean ∧
    poll_result [ScanEvent.other, ScanEvent.other]
      = .error ("Could not retrieve scan result") ∧
    poll_result [ScanEvent.other, ScanEvent.result (.error "engine failure")]
      = .error ("engine failure") :=
  ⟨poll_result_first_event.1 [ScanEvent.other]
      [ScanEvent.result (.ok (.virus "X")), ScanEvent.other] (.ok .clean) (by decide),
   poll_result_first_event.2.1 [ScanEvent.other, ScanEvent.other] (by decide),
   poll_result_first_event.2.2 [ScanEvent.other] [] "engine failure" (by decide)⟩

/-- C6: `detect_type` consults only the first `LIMIT` = 8192 bytes of the
staged artifact: its outcome is `infer::get` of exactly that prefix, two
artifacts agreeing on the prefix are indistinguishable however large they
are, and when no signature matches the prefix the outcome is the non-error
value `Ok(None)`. -/
theorem detect_type_cap :
    (∀ content : List Nat, detect_type content = .ok (infer_get (content.take LIMIT))) ∧
    (∀ c1 c2 : List Nat, c1.take LIMIT = c2.take LIMIT → detect_type c1 = detect_type c2) ∧
    (∀ content : List Nat, infer_get (content.take LIMIT) = none →
      detect_type content = .ok none) := by
  refine ⟨fun content => rfl, fun c1 c2 h => ?_, fun content h => ?_⟩
  · simp [detect_type, h]
  · simp [detect_type, h]

/-- Witness for C6: an artifact of exactly the cap and one larger than the
cap agreeing on the first 8192 bytes sniff identically, and the empty
artifact (no signature matches) sniffs to `Ok(None)`. -/
theorem detect_type_cap_witness :
    (List.replicate LIMIT 7).take LIMIT = (List.replicate (LIMIT + 5) 7).take LIMIT ∧
    detect_type (List.replicate LIMIT 7) = detect_type (List.replicate (LIMIT + 5) 7) ∧
    infer_get (([] : List Nat).take LIMIT) = none ∧
    detect_type [] = .ok none :=
  have hm : min LIMIT (LIMIT + 5) = LIMIT := by omega
  have h1 : (List.replicate LIMIT 7).take LIMIT = (List.replicate (LIMIT + 5) 7).take LIMIT := by
    simp [List.take_replicate, hm]
  ⟨h1, detect_type_cap.2.1 _ _ h1, by decide, detect_type_cap.2.2 [] (by decide)⟩

/-- A disabled shutdown endpoint answers every call with 404, never sends,
and leaves the sender slot untouched. -/
theorem shutdownSeq_false (n : Nat) (slot : Option Unit) :
    shutdownSeq false n slot = (List.replicate n (404, false), slot) := by
  induction n generalizing slot with
  | zero => rfl
  | succ n ih => simp [shutdownSeq, shutdown, ih, List.replicate]

/-- Once the sender slot is empty, an enabled endpoint answers 202 forever
without sending. -/
theorem shutdownSeq_true_none (n : Nat) :
    shutdownSeq true n none = (List.replicate n (202, false), none) := by
  induction n with
  | zero => rfl
  | succ n ih => simp [shutdownSeq, shutdown, ih, List.replicate]

/-- From an occupied slot, an enabled endpoint sends on the first call and
never again. -/
theorem shutdownSeq_true_some (n : Nat) :
    shutdownSeq true (n + 1) (some ())
      = ((202, true) :: List.replicate n (202, false), none) := by
  simp [shutdownSeq, shutdown, shutdownSeq_true_none n]

/-- C9: over any sequence of calls to the shutdown handler the one-shot
signal is sent at most once; with `enable_shutdown_endpoint = false` every
call returns 404 (NOT_FOUND), never sends, and leaves the sender slot
untouched; with it `true` every call returns 202 (ACCEPTED), and starting
from the occupied slot main.rs installs, the first call sends and no later
call sends again. -/
theorem shutdown_signal_at_most_once (n : Nat) (slot : Option Unit) :
    (∀ enable : Bool, sendCount (shutdownSeq enable n slot) ≤ 1) ∧
    (∀ p ∈ (shutdownSeq false n slot).1, p.1 = 404 ∧ p.2 = false) ∧
    ((shutdownSeq false n slot).2 = slot) ∧
    (∀ p ∈ (shutdownSeq true n slot).1, p.1 = 202) ∧
    ((shutdownSeq true (n + 1) (some ())).1.head? = some (202, true)) ∧
    (∀ p ∈ (shutdownSeq true (n + 1) (some ())).1.tail, p.2 = false) := by
  have hrep : ∀ (m : Nat) (c : StatusCode),
      ((List.replicate m (c, false)).filter (fun p => p.2)).length = 0 := by
    intro m c
    induction m with
    | zero => rfl
    | succ m ih => simp [List.replicate, List.filter, ih]
  refine ⟨?_, ?_, ?_, ?_, ?_, ?_⟩
  · intro enable
    cases enable with
    | false => simp [sendCount, shutdownSeq_false, hrep]
    | true =>
      cases slot with
      | none => simp [sendCount, shutdownSeq_true_none, hrep]
      | some u =>
        cases u
        cases n with
        | zero => simp [sendCount, shutdownSeq]
        | succ n =>
          rw [sendCount, shutdownSeq_true_some]
          simp [List.filter_cons, hrep]
  · intro p hp
    rw [shutdownSeq_false] at hp
    have := List.eq_of_mem_replicate hp
    simp [this]
  · rw [shutdownSeq_false]
  · intro p hp
    cases slot with
    | none =>
      rw [shutdownSeq_true_none] at hp
      have := List.eq_of_mem_replicate hp
      simp [this]
    | some u =>
      cases n with
      | zero => cases hp
      | succ n =>
        rw [shutdownSeq_true_some] at hp
        rcases List.mem_cons.mp hp with h | h
        · simp [h]
        · have := List.eq_of_mem_replicate h
          simp [this]
  · rw [shutdownSeq_true_some]
    rfl
  · intro p hp
    rw [shutdownSeq_true_some] at hp
    have := List.eq_of_mem_replicate hp
    simp [this]

/-- Witness for C9 at three calls from the startup state, and at one call on
a disabled endpoint. -/
theorem shutdown_signal_at_most_once_witness :
    sendCount (shutdownSeq true 3 (some ())) ≤ 1 ∧
    ((404 : StatusCode), false).1 = 404 ∧
    (shutdownSeq true 3 (some ())).1.head? = some (202, true) :=
  ⟨(shutdown_signal_at_most_once 3 (some ())).1 true,
   ((shutdown_signal_at_most_once 1 (some ())).2.1 (404, false) (by decide)).1,
   (shutdown_signal_at_most_once 2 (some ())).2.2.2.2.1⟩

/-! ## Upload-loop lemmas -/

/-- A successful run of the field loop produces one result per field, in
field order, each the outcome of processing that field. -/
theorem uploadFields_ok (now : String) (fields : List UploadField) (te : Option String)
    (results : List AvResult) (h : uploadFields now fields te = .ok results) :
    results.length = fields.length ∧
    ∀ i (hf : i < fields.length) (hr : i < results.length),
      processField now (fields.get ⟨i, hf⟩) = .ok (results.get ⟨i, hr⟩) := by
  induction fields generalizing results with
  | nil =>
    cases te with
    | none =>
      simp only [uploadFields, Except.ok.injEq] at h
      subst h
      exact ⟨rfl, fun i hf hr => absurd hf (Nat.not_lt_zero i)⟩
    | some e => simp [uploadFields] at h
  | cons f rest ih =>
    cases hpf : processField now f with
    | error e => simp [uploadFields, hpf] at h
    | ok r =>
      cases hur : uploadFields now rest te with
      | error e => simp [uploadFields, hpf, hur] at h
      | ok rs =>
        simp only [uploadFields, hpf, hur, Except.ok.injEq] at h
        subst h
        obtain ⟨hlen, hidx⟩ := ih rs hur
        refine ⟨by simp [hlen], fun i hf hr => ?_⟩
        cases i with
        | zero => exact hpf
        | succ i => exact hidx i (Nat.lt_of_succ_lt_succ hf) (Nat.lt_of_succ_lt_succ hr)

/-- If every field of a prefix processes successfully and the remainder of
the loop fails, the whole loop fails with that same error. -/
theorem uploadFields_append_error (now : String) (pre rest : List UploadField)
    (te : Option String) (err : StatusCode × String)
    (hpre : ∀ g ∈ pre, ∃ r, processField now g = .ok r)
    (hrest : uploadFields now rest te = .error err) :
    uploadFields now (pre ++ rest) te = .error err := by
  induction pre with
  | nil => simpa using hrest
  | cons g pre ih =>
    obtain ⟨r, hr⟩ := hpre g (List.mem_cons_self _ _)
    have ihh := ih (fun q hq => hpre q (List.mem_cons_of_mem _ hq))
    simp [uploadFields, hr, ihh]

/-- A field that processes successfully did not hit a multipart chunk error,
and its result is exactly the outcome of `scan` on its staged state. -/
theorem processField_ok_scan (now : String) (f : UploadField) (res : AvResult)
    (h : processField now f = .ok res) :
    scan now f (runSink f.chunks) = .ok res := by
  unfold processField at h
  cases hce : f.chunkErr with
  | some e => rw [hce] at h; simp at h
  | none =>
    rw [hce] at h
    cases hs : scan now f (runSink f.chunks) with
    | error e => rw [hs] at h; simp [Except.mapError] at h
    | ok r =>
      rw [hs] at h
      simp only [Except.mapError, Except.ok.injEq] at h
      rw [h]

/-! ## Claim theorems: result list (C3), empty request (C8) -/

/-- C3: whenever a request completes successfully, the results list has
exactly one entry per multipart field and in arrival order: entry i is the
outcome of processing field i.  The loop of lines 72-102 is strictly
sequential, so field i+1 is only reached after the result of field i has
been pushed. -/
theorem upload_results_ordered (ctx : AvContext) (req : UploadRequest) (now : String)
    (resp : AvResponse) (h : upload ctx req now = .ok resp) :
    resp.results.length = req.fields.length ∧
    ∀ i (hf : i < req.fields.length) (hr : i < resp.results.length),
      processField now (req.fields.get ⟨i, hf⟩) = .ok (resp.results.get ⟨i, hr⟩) := by
  unfold upload at h
  cases hu : uploadFields now req.fields req.trailingErr with
  | error e => rw [hu] at h; simp at h
  | ok results =>
    rw [hu] at h
    simp only [Except.ok.injEq] at h
    subst h
    exact uploadFields_ok now req.fields req.trailingErr results hu

/-- Witness for C3: a one-field request (one empty-bodied field scanning
clean) evaluates to a successful response with exactly one result. -/
theorem upload_results_ordered_witness :
    upload ⟨"v", 1, 2, "d"⟩
        ⟨[⟨some "a", none, [], none, true, none, [ScanEvent.result (.ok .clean)]⟩], none⟩ "t"
      = .ok ⟨"v", 1, 2, "d", [⟨some "a", 0, "00000000", "", "", none, "t", "CLEAN", none⟩]⟩ ∧
    ([(⟨some "a", 0, "00000000", "", "", none, "t", "CLEAN", none⟩ : AvResult)]).length
      = ([(⟨some "a", none, [], none, true, none,
          [ScanEvent.result (.ok .clean)]⟩ : UploadField)]).length :=
  ⟨by decide,
   (upload_results_ordered ⟨"v", 1, 2, "d"⟩
      ⟨[⟨some "a", none, [], none, true, none, [ScanEvent.result (.ok .clean)]⟩], none⟩ "t"
      ⟨"v", 1, 2, "d", [⟨some "a", 0, "00000000", "", "", none, "t", "CLEAN", none⟩]⟩
      (by decide)).1⟩

/-- C8: a request whose multipart field sequence is empty succeeds, with an
empty results array and the full engine metadata (version, database version,
signature count, database date) taken from the shared context. -/
theorem upload_empty_request (ctx : AvContext) (now : String) :
    upload ctx ⟨[], none⟩ now
      = .ok ⟨ctx.clamav_version, ctx.db_version, ctx.db_sig_count, ctx.db_date, []⟩ :=
  rfl

/-! ## Claim theorems: error propagation (C4), signature invariant (C7),
invalid temp path (C10) -/

/-- C4: the first failing field aborts the whole request with the error that
field mapped to, whatever fields follow; a multipart chunk error maps to status
400 with the multipart message; a multipart error from `next_field` after
any successfully processed fields maps to 400; the non-UTF-8 temp path io
error and the engine-communication failures (submission error, engine-
reported scan error, stream exhausted without a result) map to 500 with
their message.  The return type of the handler makes an error response and
a results payload mutually exclusive. -/
theorem upload_fail_fast :
    (∀ (ctx : AvContext) (now : String) (pre : List UploadField) (f : UploadField)
       (post : List UploadField) (te : Option String) (err : StatusCode × String),
      (∀ g ∈ pre, ∃ r, processField now g = .ok r) →
      processField now f = .error err →
      upload ctx ⟨pre ++ f :: post, te⟩ now = .error err) ∧
    (∀ (now : String) (f : UploadField) (e : String),
      f.chunkErr = some e → processField now f = .error (400, e)) ∧
    (∀ (ctx : AvContext) (now : String) (fields : List UploadField) (e : String),
      (∀ g ∈ fields, ∃ r, processField now g = .ok r) →
      upload ctx ⟨fields, some e⟩ now = .error (400, e)) ∧
    (∀ (now : String) (f : UploadField),
      f.chunkErr = none → f.tmpPathUtf8 = false →
      processField now f = .error (500, "invalid path string")) ∧
    (∀ (now : String) (f : UploadField) (e : String),
      f.chunkErr = none → f.tmpPathUtf8 = true → f.scanSubmitErr = some e →
      processField now f = .error (500, e)) ∧
    (∀ (now : String) (f : UploadField) (m : String),
      f.chunkErr = none → f.tmpPathUtf8 = true → f.scanSubmitErr = none →
      poll_result f.scanEvents = .error m →
      processField now f = .error (500, m)) := by
  refine ⟨?_, ?_, ?_, ?_, ?_, ?_⟩
  · intro ctx now pre f post te err hpre hf
    have hrest : uploadFields now (f :: post) te = .error err := by
      simp [uploadFields, hf]
    have hall := uploadFields_append_error now pre (f :: post) te err hpre hrest
    simp [upload, hall]
  · intro now f e hce
    simp [processField, hce, map_mp_error_to_400]
  · intro ctx now fields e hok
    have hrest : uploadFields now [] (some e) = .error (400, e) := rfl
    have hall := uploadFields_append_error now fields [] (some e) (400, e) hok hrest
    rw [List.append_nil] at hall
    simp [upload, hall]
  · intro now f hce hp
    simp [processField, hce, scan, hp, Except.mapError, map_io_error_to_500]
  · intro now f e hce hp hs
    simp [processField, hce, scan, hp, detect_type, hs, Except.mapError, map_io_error_to_500]
  · intro now f m hce hp hs hpr
    simp [processField, hce, scan, hp, detect_type, hs, hpr, Except.mapError,
      map_io_error_to_500]

/-- Witness for C4: a request whose second field has a bad temp path aborts
with 500 despite a third field following; a chunk error maps to 400; a
trailing multipart error maps to 400; an exhausted engine stream maps to
500. -/
theorem upload_fail_fast_witness :
    upload ⟨"v", 1, 2, "d"⟩
        ⟨[⟨some "g", none, [], none, true, none, [ScanEvent.result (.ok .clean)]⟩,
          ⟨some "p", none, [], none, false, none, []⟩,
          ⟨some "q", none, [], none, true, none, [ScanEvent.result (.ok .clean)]⟩], none⟩ "t"
      = .error (500, "invalid path string") ∧
    processField "t" ⟨none, some "c", [], some "bad chunk", true, none, []⟩
      = .error (400, "bad chunk") ∧
    upload ⟨"v", 1, 2, "d"⟩ ⟨[], some "trailing garbage"⟩ "t"
      = .error (400, "trailing garbage") ∧
    processField "t" ⟨none, none, [], none, true, none, [ScanEvent.other]⟩
      = .error (500, "Could not retrieve scan result") :=
  ⟨upload_fail_fast.1 ⟨"v", 1, 2, "d"⟩ "t"
      [⟨some "g", none, [], none, true, none, [ScanEvent.result (.ok .clean)]⟩]
      ⟨some "p", none, [], none, false, none, []⟩
      [⟨some "q", none, [], none, true, none, [ScanEvent.result (.ok .clean)]⟩] none
      (500, "invalid path string")
      (fun g hg => by
        rw [List.mem_singleton.mp hg]
        exact ⟨⟨some "g", 0, "00000000", "", "", none, "t", "CLEAN", none⟩, by decide⟩)
      (by decide),
   upload_fail_fast.2.1 "t" ⟨none, some "c", [], some "bad chunk", true, none, []⟩
      "bad chunk" rfl,
   upload_fail_fast.2.2.1 ⟨"v", 1, 2, "d"⟩ "t" [] "trailing garbage"
      (fun g hg => absurd hg (List.not_mem_nil g)),
   upload_fail_fast.2.2.2.2.2 "t" ⟨none, none, [], none, true, none, [ScanEvent.other]⟩
      "Could not retrieve scan result" rfl rfl rfl rfl⟩

/-- Every successful `scan` outcome carries a signature exactly when its tag
is VIRUS, and never when the tag is CLEAN or WHITELISTED. -/
theorem scan_ok_signature (now : String) (f : UploadField) (st : SinkState) (res : AvResult)
    (h : scan now f st = .ok res) :
    (res.result = "VIRUS" ↔ res.signature ≠ none) ∧
    ((res.result = "CLEAN" ∨ res.result = "WHITELISTED") → res.signature = none) := by
  unfold scan at h
  cases hp : f.tmpPathUtf8 with
  | false => rw [hp] at h; simp at h
  | true =>
    rw [hp] at h
    simp only [detect_type] at h
    cases hs : f.scanSubmitErr with
    | some e => rw [hs] at h; simp at h
    | none =>
      rw [hs] at h
      cases hpr : poll_result f.scanEvents with
      | error e => rw [hpr] at h; simp at h
      | ok r =>
        rw [hpr] at h
        simp only [Except.ok.injEq] at h
        subst h
        cases r with
        | clean =>
          exact ⟨⟨fun hx => absurd hx (show ("CLEAN" : String) ≠ "VIRUS" by decide),
            fun hx => absurd rfl hx⟩, fun _ => rfl⟩
        | whitelisted =>
          exact ⟨⟨fun hx => absurd hx (show ("WHITELISTED" : String) ≠ "VIRUS" by decide),
            fun hx => absurd rfl hx⟩, fun _ => rfl⟩
        | virus sig =>
          exact ⟨⟨fun _ => Option.some_ne_none sig, fun _ => rfl⟩,
            fun hx => absurd hx
              (show ¬(("VIRUS" : String) = "CLEAN" ∨ ("VIRUS" : String) = "WHITELISTED")
                by decide)⟩

/-- C7: in every successful response, each FileResult has a signature name
exactly when its result tag is "VIRUS"; for "CLEAN" and "WHITELISTED" the
signature is absent. -/
theorem upload_signature_iff_virus (ctx : AvContext) (req : UploadRequest) (now : String)
    (resp : AvResponse) (h : upload ctx req now = .ok resp) :
    ∀ res ∈ resp.results,
      (res.result = "VIRUS" ↔ res.signature ≠ none) ∧
      ((res.result = "CLEAN" ∨ res.result = "WHITELISTED") → res.signature = none) := by
  unfold upload at h
  cases hu : uploadFields now req.fields req.trailingErr with
  | error e => rw [hu] at h; simp at h
  | ok results =>
    rw [hu] at h
    simp only [Except.ok.injEq] at h
    subst h
    intro res hres
    obtain ⟨hlen, hidx⟩ := uploadFields_ok now req.fields req.trailingErr results hu
    have hres2 : res ∈ results := hres
    obtain ⟨⟨i, hr⟩, hget⟩ := List.get_of_mem hres2
    subst hget
    have hf : i < req.fields.length := hlen ▸ hr
    exact scan_ok_signature now _ _ _
      (processField_ok_scan now _ _ (hidx i hf hr))

/-- Witness for C7 on a concrete flagged upload: the VIRUS result of a
one-field request carries its signature. -/
theorem upload_signature_iff_virus_witness :
    ((⟨some "e", 0, "00000000", "", "", none, "t", "VIRUS", some "Sig"⟩ : AvResult).result
        = "VIRUS"
      ↔ (⟨some "e", 0, "00000000", "", "", none, "t", "VIRUS", some "Sig"⟩ : AvResult).signature
        ≠ none) :=
  (upload_signature_iff_virus ⟨"v", 1, 2, "d"⟩
      ⟨[⟨some "e", none, [], none, true, none,
        [ScanEvent.result (.ok (.virus "Sig"))]⟩], none⟩ "t"
      ⟨"v", 1, 2, "d", [⟨some "e", 0, "00000000", "", "", none, "t", "VIRUS", some "Sig"⟩]⟩
      (by decide)
      ⟨some "e", 0, "00000000", "", "", none, "t", "VIRUS", some "Sig"⟩ (by decide)).1

/-- C10: a field whose staged temp-file path is not valid UTF-8 makes `scan`
fail with the io error "invalid path string" whatever the staged content and
the engine would have done (no sniffing outcome and no engine event is ever
consulted), and the whole request aborts with 500 and that message, whatever
fields follow. -/
theorem invalid_path_aborts :
    (∀ (now : String) (f : UploadField) (st : SinkState),
      f.tmpPathUtf8 = false → scan now f st = .error ("invalid path string")) ∧
    (∀ (ctx : AvContext) (now : String) (pre : List UploadField) (f : UploadField)
       (post : List UploadField) (te : Option String),
      (∀ g ∈ pre, ∃ r, processField now g = .ok r) →
      f.chunkErr = none → f.tmpPathUtf8 = false →
      upload ctx ⟨pre ++ f :: post, te⟩ now = .error (500, "invalid path string")) := by
  have hscan : ∀ (now : String) (f : UploadField) (st : SinkState),
      f.tmpPathUtf8 = false → scan now f st = .error ("invalid path string") := by
    intro now f st hp
    simp [scan, hp]
  refine ⟨hscan, ?_⟩
  intro ctx now pre f post te hpre hce hp
  have hf : processField now f = .error (500, "invalid path string") := by
    simp [processField, hce, hscan now f _ hp, Except.mapError, map_io_error_to_500]
  have hrest : uploadFields now (f :: post) te = .error (500, "invalid path string") := by
    simp [uploadFields, hf]
  have hall := uploadFields_append_error now pre (f :: post) te _ hpre hrest
  simp [upload, hall]

/-- Witness for C10: a field with a non-UTF-8 temp path, full of content and
with a clean engine stream available, still aborts the request with 500 and
"invalid path string". -/
theorem invalid_path_aborts_witness :
    scan "t" ⟨some "x", none, [([9, 9], 2)], none, false, none,
        [ScanEvent.result (.ok .clean)]⟩ (runSink [([9, 9], 2)])
      = .error ("invalid path string") ∧
    upload ⟨"v", 1, 2, "d"⟩
        ⟨[⟨some "x", none, [([9, 9], 2)], none, false, none,
          [ScanEvent.result (.ok .clean)]⟩], none⟩ "t"
      = .error (500, "invalid path string") :=
  ⟨invalid_path_aborts.1 "t"
      ⟨some "x", none, [([9, 9], 2)], none, false, none,
        [ScanEvent.result (.ok .clean)]⟩ (runSink [([9, 9], 2)]) rfl,
   invalid_path_aborts.2 ⟨"v", 1, 2, "d"⟩ "t" []
      ⟨some "x", none, [([9, 9], 2)], none, false, none,
        [ScanEvent.result (.ok .clean)]⟩ [] none
      (fun g hg => absurd hg (List.not_mem_nil g)) rfl rfl⟩

end Reefspect
